import Mathlib

/-!
Verification of `mindnlp/_legacy/initializer.py` and
`tests/ut/transformers/models/oneformer/test_modeling_oneformer.py`.

The Python code is embedded shallowly:

* numpy arrays become the structure `NDArray` (shape, dtype tag, flat data);
* the native primitive `mindspore._c_expression.random_normal(seed, data, mean, sigma)`
  is opaque in the source, so the fill it performs is a parameter `fill`, and every
  invocation of it is recorded as a `NormalCall` in a trace;
* `np.random.randint` draws from the numpy global generator; the generator state at
  entry is modelled by the raw nonnegative word `state` it yields, reduced into the
  requested range as numpy documents (a value uniform in `[low, high)`);
* the real-valued `math.sqrt` of CPython floats is abstracted by a parameter
  `sqrtQ : ℚ → ℚ`, and all numeric values are rationals;
* `mindspore.common.initializer._calculate_fan_in_and_fan_out`, an external framework
  helper, is abstracted by a parameter `fanCalc : List Nat → Nat × Nat`;
* exceptions become `Except String`: `raise ValueError("sigma < 0")` is
  `Except.error "sigma < 0"`;
* of the test module, the shape assertions of `comm_check_on_output`, the
  `unittest.skip` decorations of the test methods of `OneFormerModelTest`, and the
  `np.allclose(..., atol=TOLERANCE)` regression assertions of the integration test
  class are embedded; golden decimal fixture literals become exact rationals.
-/

/-- numpy dtype tags used by the module (`np.float32`, `np.int64`). -/
inductive DType
  | float32
  | int64
deriving DecidableEq, Repr

/-- A numpy array: its shape, its dtype and its (flattened) contents. -/
structure NDArray where
  shape : List Nat
  dtype : DType
  data : List ℚ
deriving DecidableEq, Repr

/-- One invocation of the native primitive `random_normal(seed, data, mean, sigma)`:
the seed, the mean and sigma arguments, and the shape of the array being filled. -/
structure NormalCall where
  seed : Int
  mean : ℚ
  sigma : ℚ
  shape : List Nat
deriving DecidableEq, Repr

/-- `np.random.randint(low=low, high=high, dtype=np.int64)`: by the documented numpy
contract it returns an integer uniform in `[low, high)` drawn from the global
generator; the raw nonnegative draw of the generator is the parameter `state`. -/
def numpyRandint (low high : Int) (state : Nat) : Int :=
  low + (state : Int) % (high - low)

/-- `_numpy_seed()`: `np.random.randint(low=1, high=(1 << 63), dtype=np.int64)`. -/
def numpySeed (state : Nat) : Int :=
  numpyRandint 1 (2 ^ 63) state

/-- `_init_random_normal(mean, sigma, shape)`: raises `ValueError("sigma < 0")` when
`sigma < 0`; otherwise allocates `np.ndarray(shape=shape, dtype=np.float32)`, fills it
through the native `random_normal(_numpy_seed(), data, mean, sigma)` and returns it.
The second component is the trace of native random-normal invocations. -/
def initRandomNormal (fill : Int → ℚ → ℚ → List Nat → List ℚ)
    (mean sigma : ℚ) (shape : List Nat) (state : Nat) :
    Except String NDArray × List NormalCall :=
  if sigma < 0 then
    (.error "sigma < 0", [])
  else
    let seed := numpySeed state
    (.ok ⟨shape, DType.float32, fill seed mean sigma shape⟩,
     [⟨seed, mean, sigma, shape⟩])

/-- `mindspore.common.initializer._assignment(arr, data)`: writes the values of
`data` into `arr` in place; `arr` keeps its own shape and dtype. -/
def assignment (arr data : NDArray) : NDArray :=
  { arr with data := data.data }

/-- The `XavierNormal(gain=1)` object: its only state is `self.gain`. -/
structure XavierNormal where
  gain : ℚ
deriving DecidableEq, Repr

/-- The standard deviation computed by the `XavierNormal` fill method:
`std = self.gain * math.sqrt(2.0 / float(fan_in + fan_out))`. -/
def xavierStd (sqrtQ : ℚ → ℚ) (gain : ℚ) (fan_in fan_out : Nat) : ℚ :=
  gain * sqrtQ (2 / ((fan_in : ℚ) + (fan_out : ℚ)))

/-- The body of the `XavierNormal` fill method (`_initialize` in the source): it
computes `fan_in, fan_out` from `arr.shape` through the framework helper
`_calculate_fan_in_and_fan_out` (the parameter `fanCalc`), computes `std`, draws
`data = _init_random_normal(0, std, arr.shape)` and writes `data` into `arr` with
`_assignment`.  The result is the exception status, the final contents of `arr`,
and the trace of native random-normal invocations: when `_init_random_normal`
raises, `_assignment` is never reached and `arr` is returned untouched. -/
def xavierInit (fanCalc : List Nat → Nat × Nat) (sqrtQ : ℚ → ℚ)
    (fill : Int → ℚ → ℚ → List Nat → List ℚ)
    (self : XavierNormal) (arr : NDArray) (state : Nat) :
    Except String Unit × NDArray × List NormalCall :=
  let fan := fanCalc arr.shape
  let std := xavierStd sqrtQ self.gain fan.1 fan.2
  match initRandomNormal fill 0 std arr.shape state with
  | (.error e, calls) => (.error e, arr, calls)
  | (.ok data, calls) => (.ok (), assignment arr data, calls)

/-- A concrete stand-in for the opaque native fill, used only to instantiate
theorems at concrete inputs. -/
def fillZero : Int → ℚ → ℚ → List Nat → List ℚ := fun _ _ _ _ => []

/-- A concrete stand-in for `_calculate_fan_in_and_fan_out`, used only to
instantiate theorems at concrete inputs. -/
def fanConst : List Nat → Nat × Nat := fun _ => (2, 3)

/-- A concrete array (shape `[2, 3]`, dtype float32) used to instantiate theorems. -/
def arrEx : NDArray := ⟨[2, 3], DType.float32, []⟩

/-- The constructor parameters of `OneFormerModelTester` that the embedded shape
check reads (the remaining parameters of the Python constructor are unused by it). -/
structure OneFormerModelTester where
  batch_size : Nat
  num_queries : Nat
  min_size : Nat
  max_size : Nat
  num_labels : Nat
deriving DecidableEq, Repr

/-- The tester built in `setUp`, with the Python constructor defaults
`batch_size=2, num_queries=10, min_size=32*8, max_size=32*8, num_labels=4`. -/
def defaultTester : OneFormerModelTester := ⟨2, 10, 32 * 8, 32 * 8, 4⟩

/-- The fields of a `OneFormerForUniversalSegmentation` output that
`comm_check_on_output` reads: three optional hidden-state stacks and the shapes of
the two logits tensors. -/
structure SegOutput where
  transformer_decoder_hidden_states : Option (List ℚ)
  pixel_decoder_hidden_states : Option (List ℚ)
  encoder_hidden_states : Option (List ℚ)
  masks_queries_logits_shape : List Nat
  class_queries_logits_shape : List Nat
deriving DecidableEq, Repr

/-- `comm_check_on_output(result)` from
`create_and_check_oneformer_universal_segmentation_head_model`: three
`assertTrue(... is not None)` checks, then
`assertEqual(result.masks_queries_logits.shape,
(batch_size, num_queries, min_size // 4, max_size // 4))` and
`assertEqual(result.class_queries_logits.shape,
(batch_size, num_queries, num_labels + 1))`. -/
def commCheckOnOutput (t : OneFormerModelTester) (r : SegOutput) : Bool :=
  r.transformer_decoder_hidden_states.isSome
    && r.pixel_decoder_hidden_states.isSome
    && r.encoder_hidden_states.isSome
    && (r.masks_queries_logits_shape
          == [t.batch_size, t.num_queries, t.min_size / 4, t.max_size / 4])
    && (r.class_queries_logits_shape == [t.batch_size, t.num_queries, t.num_labels + 1])

/-- A test method of the suite: its name, the reason of its `unittest.skip`
decorator when it has one, and whether it is decorated with `@slow`. -/
structure TestMethod where
  name : String
  skipReason : Option String
  slow : Bool
deriving DecidableEq, Repr

/-- The test methods of `OneFormerModelTest`, in source order, with their
`unittest.skip` decorations and `@slow` markers as written in the file. -/
def oneFormerModelTestMethods : List TestMethod :=
  [⟨"test_config", none, false⟩,
   ⟨"test_oneformer_model", none, false⟩,
   ⟨"test_oneformer_universal_segmentation_head_model", none, false⟩,
   ⟨"test_model_main_input_name", none, false⟩,
   ⟨"test_torchscript_simple", some "OneFormer uses two main inputs", false⟩,
   ⟨"test_torchscript_output_attentions", some "OneFormer uses two main inputs", false⟩,
   ⟨"test_torchscript_output_hidden_state", some "OneFormer uses two main inputs", false⟩,
   ⟨"test_inputs_embeds", some "OneFormer does not use inputs_embeds", false⟩,
   ⟨"test_model_common_attributes", some "OneFormer does not have a get_input_embeddings method", false⟩,
   ⟨"test_generate_without_input_ids", some "OneFormer is not a generative model", false⟩,
   ⟨"test_resize_tokens_embeddings", some "OneFormer does not use token embeddings", false⟩,
   ⟨"test_multi_gpu_data_parallel_forward",
     some "OneFormer has some layers using `add_module` which doesn\x27t work well with `nn.DataParallel`", false⟩,
   ⟨"test_forward_signature", none, false⟩,
   ⟨"test_model_from_pretrained", none, true⟩,
   ⟨"test_model_with_labels", none, false⟩,
   ⟨"test_hidden_states_output", none, false⟩,
   ⟨"test_attention_outputs", none, false⟩,
   ⟨"test_initialization",
     some "ignore due to the difference for default bias initialization between mindspore.nn.Dense and torch.nn.Linear", false⟩,
   ⟨"test_training", some "ski training", false⟩,
   ⟨"test_retain_grad_hidden_states_attentions", some "Mindspore has no retain_grad", false⟩]

/-- unittest semantics for this suite: the body of a test method executes on a run
iff the method carries no `unittest.skip` decorator and, when it is `@slow`,
slow tests are enabled for that run (`runSlow`). -/
def executedTests (runSlow : Bool) (methods : List TestMethod) : List String :=
  (methods.filter fun m => m.skipReason.isNone && (!m.slow || runSlow)).map fun m => m.name

/-- `TOLERANCE = 1e-4`, the absolute tolerance given to every `np.allclose` call of
the integration test class. -/
def TOLERANCE : ℚ := 1 / 10000

/-- The default relative tolerance of `np.allclose` (`rtol=1e-5`), which the test
never overrides. -/
def npRtol : ℚ := 1 / 100000

/-- `np.allclose(a, b, atol=atol)` on flat slices, by the documented numpy contract:
`True` iff the slices have equal length and elementwise
`|a - b| <= atol + rtol * |b|` with the default `rtol`. -/
def npAllclose (atol : ℚ) (a b : List ℚ) : Bool :=
  (a.length == b.length) &&
    (a.zip b).all fun p => decide (|p.1 - p.2| ≤ atol + npRtol * |p.2|)

/-- Golden fixture of `test_inference_no_head`, first assertion (encoder hidden
state slice), row-major. -/
def expectedEncoderSlice : List ℚ :=
  [2723/10000, 8280/10000, 6026/10000,
   12699/10000, 11257/10000, 11444/10000,
   11344/10000, 6153/10000, 4177/10000]

/-- Golden fixture of `test_inference_no_head`, second assertion (pixel decoder
hidden state slice), row-major. -/
def expectedPixelDecoderSlice : List ℚ :=
  [10581/10000, 12276/10000, 12003/10000,
   11903/10000, 12925/10000, 12862/10000,
   1158/1000, 12559/10000, 13216/10000]

/-- Golden fixture of `test_inference_no_head`, third assertion (transformer decoder
class prediction slice), row-major. -/
def expectedClassPredictionsSlice : List ℚ :=
  [30668/10000, -11833/10000, -51103/10000,
   3344/1000, -3362/1000, -51101/10000,
   26017/10000, -43613/10000, -41444/10000]

/-- Golden fixture of `test_inference_universal_segmentation_head`, masks logits
slice, row-major. -/
def expectedMasksSlice : List ℚ :=
  [31848/10000, 42141/10000, 41993/10000,
   29000/10000, 35721/10000, 36603/10000,
   25358/10000, 30883/10000, 36168/10000]

/-- Golden fixture of `test_inference_universal_segmentation_head`, class logits
slice, row-major. -/
def expectedSegClassSlice : List ℚ :=
  [30668/10000, -11833/10000, -51103/10000,
   33440/10000, -33620/10000, -51101/10000,
   26017/10000, -43613/10000, -41444/10000]

/-- First numeric regression assertion of `test_inference_no_head`:
`np.allclose(observed, expected_slice_hidden_state, atol=TOLERANCE)`. -/
def inferenceNoHeadAssertion1 (observed : List ℚ) : Bool :=
  npAllclose TOLERANCE observed expectedEncoderSlice

/-- Second numeric regression assertion of `test_inference_no_head`. -/
def inferenceNoHeadAssertion2 (observed : List ℚ) : Bool :=
  npAllclose TOLERANCE observed expectedPixelDecoderSlice

/-- Third numeric regression assertion of `test_inference_no_head`. -/
def inferenceNoHeadAssertion3 (observed : List ℚ) : Bool :=
  npAllclose TOLERANCE observed expectedClassPredictionsSlice

/-- Masks-logits regression assertion of `test_inference_universal_segmentation_head`. -/
def segHeadAssertionMasks (observed : List ℚ) : Bool :=
  npAllclose TOLERANCE observed expectedMasksSlice

/-- Class-logits regression assertion of `test_inference_universal_segmentation_head`. -/
def segHeadAssertionClass (observed : List ℚ) : Bool :=
  npAllclose TOLERANCE observed expectedSegClassSlice

/-- `expectedEncoderSlice` with its first element moved by `5e-5`: unequal to the
fixture, yet within the `np.allclose` tolerance. -/
def offEncoderSlice : List ℚ :=
  [2723/10000 + 1/20000, 8280/10000, 6026/10000,
   12699/10000, 11257/10000, 11444/10000,
   11344/10000, 6153/10000, 4177/10000]

/-- Normal form of the `XavierNormal` fill method: a single test on the sign of the
computed standard deviation decides between the `ValueError` path (array untouched,
no native call) and the fill path (one native call, array overwritten). -/
theorem xavierInit_eq (fanCalc : List Nat → Nat × Nat) (sqrtQ : ℚ → ℚ)
    (fill : Int → ℚ → ℚ → List Nat → List ℚ)
    (self : XavierNormal) (arr : NDArray) (state : Nat) :
    xavierInit fanCalc sqrtQ fill self arr state =
      if xavierStd sqrtQ self.gain (fanCalc arr.shape).1 (fanCalc arr.shape).2 < 0 then
        (Except.error "sigma < 0", arr, [])
      else
        (Except.ok (),
         ⟨arr.shape, arr.dtype,
          fill (numpySeed state) 0 (xavierStd sqrtQ self.gain (fanCalc arr.shape).1 (fanCalc arr.shape).2) arr.shape⟩,
         [⟨numpySeed state, 0, xavierStd sqrtQ self.gain (fanCalc arr.shape).1 (fanCalc arr.shape).2, arr.shape⟩]) := by
  unfold xavierInit initRandomNormal assignment
  dsimp only
  split_ifs with h <;> rfl

/-- Claim C1: every native random-normal invocation made by the `XavierNormal` fill
method passes mean `0` and sigma `gain * sqrt(2.0 / (fan_in + fan_out))`, where
`fan_in, fan_out` are computed from `arr.shape`. -/
theorem xavier_call_mean_sigma (fanCalc : List Nat → Nat × Nat) (sqrtQ : ℚ → ℚ)
    (fill : Int → ℚ → ℚ → List Nat → List ℚ) (g : ℚ) (arr : NDArray) (state : Nat)
    (c : NormalCall) (hc : c ∈ (xavierInit fanCalc sqrtQ fill ⟨g⟩ arr state).2.2) :
    c.mean = 0 ∧
      c.sigma = g * sqrtQ (2 / (((fanCalc arr.shape).1 : ℚ) + ((fanCalc arr.shape).2 : ℚ))) := by
  rcases lt_or_le (xavierStd sqrtQ g (fanCalc arr.shape).1 (fanCalc arr.shape).2) 0 with h | h
  · exfalso
    simp only [xavierInit, initRandomNormal, if_pos h] at hc
    exact List.not_mem_nil c hc
  · simp only [xavierInit, initRandomNormal, if_neg (not_lt.mpr h)] at hc
    simp only [List.mem_singleton] at hc
    subst hc
    exact ⟨rfl, rfl⟩

/-- Witness for claim C1 at gain 1, fan pair (2, 3), generator word 0: the single
native call carries mean 0 and sigma `1 * sqrt(2 / 5)`. -/
theorem xavier_call_mean_sigma_witness :
    (NormalCall.mk 1 0 (2 / 5) [2, 3]).mean = 0 ∧
      (NormalCall.mk 1 0 (2 / 5) [2, 3]).sigma
        = 1 * id (2 / (((fanConst arrEx.shape).1 : ℚ) + ((fanConst arrEx.shape).2 : ℚ))) :=
  xavier_call_mean_sigma fanConst id fillZero 1 arrEx 0 _ (by
    rw [xavierInit_eq, if_neg (by norm_num [xavierStd, fanConst, arrEx])]
    norm_num [xavierStd, fanConst, arrEx, numpySeed, numpyRandint, NormalCall.mk.injEq])

/-- Claim C2: `_init_random_normal` raises `ValueError("sigma < 0")` iff
`sigma < 0`, returns normally for every `sigma >= 0`, and this is the only error
the module raises: any error escaping the `XavierNormal` fill method is that same
`ValueError`. -/
theorem initRandomNormal_valueError (fill : Int → ℚ → ℚ → List Nat → List ℚ)
    (mean sigma : ℚ) (shape : List Nat) (state : Nat) :
    ((initRandomNormal fill mean sigma shape state).1 = Except.error "sigma < 0" ↔ sigma < 0)
    ∧ (0 ≤ sigma → ∃ out, (initRandomNormal fill mean sigma shape state).1 = Except.ok out)
    ∧ (∀ (fanCalc : List Nat → Nat × Nat) (sqrtQ : ℚ → ℚ) (self : XavierNormal) (arr : NDArray) (e : String),
        (xavierInit fanCalc sqrtQ fill self arr state).1 = Except.error e → e = "sigma < 0") := by
  refine ⟨?_, ?_, ?_⟩
  · unfold initRandomNormal
    split_ifs with h <;> simp [h]
  · intro h
    unfold initRandomNormal
    rw [if_neg (not_lt.mpr h)]
    exact ⟨_, rfl⟩
  · intro fanCalc sqrtQ self arr e he
    rw [xavierInit_eq] at he
    by_cases h : xavierStd sqrtQ self.gain (fanCalc arr.shape).1 (fanCalc arr.shape).2 < 0
    · rw [if_pos h] at he
      simpa using he.symm
    · rw [if_neg h] at he
      simp at he

/-- Witness for claim C2: at sigma `-1` the call raises the `ValueError`, at
sigma `1` it returns normally. -/
theorem initRandomNormal_valueError_witness :
    (initRandomNormal fillZero 0 (-1) [2] 0).1 = Except.error "sigma < 0"
    ∧ ∃ out, (initRandomNormal fillZero 0 1 [2] 0).1 = Except.ok out :=
  ⟨(initRandomNormal_valueError fillZero 0 (-1) [2] 0).1.mpr (by norm_num),
   (initRandomNormal_valueError fillZero 0 1 [2] 0).2.1 (by norm_num)⟩

/-- Claim C3 counterexample: a slice unequal to the golden fixture still passes the
first regression assertion of `test_inference_no_head`, so the assertion does not
require exact floating-point equality. -/
theorem inference_assertion_not_exact_cex :
    inferenceNoHeadAssertion1 offEncoderSlice = true
    ∧ offEncoderSlice ≠ expectedEncoderSlice := by
  constructor
  · norm_num [inferenceNoHeadAssertion1, npAllclose, offEncoderSlice, expectedEncoderSlice,
      TOLERANCE, npRtol, abs]
  · simp only [offEncoderSlice, expectedEncoderSlice, ne_eq, List.cons.injEq, not_and]
    intro h
    exact absurd h (by norm_num)

/-- Claim C3 (amended): every numeric regression assertion of the integration test
class compares the observed slice to its golden fixture with `np.allclose` at
absolute tolerance `TOLERANCE = 1e-4` and the numpy default relative tolerance
`1e-5`: the assertion passes exactly when the lengths agree and every element is
within `atol + rtol * |expected|` of the fixture, so exact equality is sufficient
but not necessary. -/
theorem inference_assertions_are_allclose (observed : List ℚ) :
    (inferenceNoHeadAssertion1 observed = true ↔
      observed.length = expectedEncoderSlice.length ∧
        ∀ p ∈ observed.zip expectedEncoderSlice, |p.1 - p.2| ≤ TOLERANCE + npRtol * |p.2|)
    ∧ (inferenceNoHeadAssertion2 observed = true ↔
      observed.length = expectedPixelDecoderSlice.length ∧
        ∀ p ∈ observed.zip expectedPixelDecoderSlice, |p.1 - p.2| ≤ TOLERANCE + npRtol * |p.2|)
    ∧ (inferenceNoHeadAssertion3 observed = true ↔
      observed.length = expectedClassPredictionsSlice.length ∧
        ∀ p ∈ observed.zip expectedClassPredictionsSlice, |p.1 - p.2| ≤ TOLERANCE + npRtol * |p.2|)
    ∧ (segHeadAssertionMasks observed = true ↔
      observed.length = expectedMasksSlice.length ∧
        ∀ p ∈ observed.zip expectedMasksSlice, |p.1 - p.2| ≤ TOLERANCE + npRtol * |p.2|)
    ∧ (segHeadAssertionClass observed = true ↔
      observed.length = expectedSegClassSlice.length ∧
        ∀ p ∈ observed.zip expectedSegClassSlice, |p.1 - p.2| ≤ TOLERANCE + npRtol * |p.2|) := by
  refine ⟨?_, ?_, ?_, ?_, ?_⟩ <;>
    simp [inferenceNoHeadAssertion1, inferenceNoHeadAssertion2, inferenceNoHeadAssertion3,
      segHeadAssertionMasks, segHeadAssertionClass, npAllclose, List.all_eq_true]

/-- Claim C4: the computation is deterministic given the generator state: two runs
of the `XavierNormal` fill method on arrays of the same shape, from the same
generator state, raise the same way, invoke the native primitive with identical
`(seed, mean, sigma, shape)` arguments, and, when they succeed, leave identical
data in the arrays. -/
theorem xavier_deterministic (fanCalc : List Nat → Nat × Nat) (sqrtQ : ℚ → ℚ)
    (fill : Int → ℚ → ℚ → List Nat → List ℚ) (g : ℚ) (arr1 arr2 : NDArray) (state : Nat)
    (hsh : arr1.shape = arr2.shape) :
    (xavierInit fanCalc sqrtQ fill ⟨g⟩ arr1 state).2.2
        = (xavierInit fanCalc sqrtQ fill ⟨g⟩ arr2 state).2.2
    ∧ (xavierInit fanCalc sqrtQ fill ⟨g⟩ arr1 state).1
        = (xavierInit fanCalc sqrtQ fill ⟨g⟩ arr2 state).1
    ∧ ((xavierInit fanCalc sqrtQ fill ⟨g⟩ arr1 state).1 = Except.ok () →
        (xavierInit fanCalc sqrtQ fill ⟨g⟩ arr1 state).2.1.data
          = (xavierInit fanCalc sqrtQ fill ⟨g⟩ arr2 state).2.1.data) := by
  rw [xavierInit_eq, xavierInit_eq, hsh]
  split_ifs with h
  · exact ⟨rfl, rfl, by simp⟩
  · exact ⟨rfl, rfl, fun _ => rfl⟩

/-- Witness for claim C4: two arrays of shape `[2, 3]` with different prior
contents, filled from the same generator word, get identical traces, statuses and
final data. -/
theorem xavier_deterministic_witness :
    (xavierInit fanConst id fillZero ⟨1⟩ arrEx 0).2.2
        = (xavierInit fanConst id fillZero ⟨1⟩ ⟨[2, 3], DType.float32, [1]⟩ 0).2.2
    ∧ (xavierInit fanConst id fillZero ⟨1⟩ arrEx 0).1
        = (xavierInit fanConst id fillZero ⟨1⟩ ⟨[2, 3], DType.float32, [1]⟩ 0).1
    ∧ ((xavierInit fanConst id fillZero ⟨1⟩ arrEx 0).1 = Except.ok () →
        (xavierInit fanConst id fillZero ⟨1⟩ arrEx 0).2.1.data
          = (xavierInit fanConst id fillZero ⟨1⟩ ⟨[2, 3], DType.float32, [1]⟩ 0).2.1.data) :=
  xavier_deterministic fanConst id fillZero 1 arrEx ⟨[2, 3], DType.float32, [1]⟩ 0 rfl

/-- Claim C5: `comm_check_on_output` passes exactly when the three hidden-state
stacks are present, `masks_queries_logits` has shape
`(batch_size, num_queries, min_size // 4, max_size // 4)` and
`class_queries_logits` has shape `(batch_size, num_queries, num_labels + 1)`,
all derived from the tester configuration. -/
theorem comm_check_shapes (t : OneFormerModelTester) (r : SegOutput) :
    commCheckOnOutput t r = true ↔
      (r.transformer_decoder_hidden_states.isSome = true
       ∧ r.pixel_decoder_hidden_states.isSome = true
       ∧ r.encoder_hidden_states.isSome = true
       ∧ r.masks_queries_logits_shape
           = [t.batch_size, t.num_queries, t.min_size / 4, t.max_size / 4]
       ∧ r.class_queries_logits_shape = [t.batch_size, t.num_queries, t.num_labels + 1]) := by
  simp [commCheckOnOutput, and_assoc]

/-- Claim C6: `test_training` and `test_retain_grad_hidden_states_attentions` are
decorated with unconditional `unittest.skip` decorators, so neither body executes
on any run of the suite (slow tests enabled or not). -/
theorem training_tests_never_executed (runSlow : Bool) :
    (executedTests runSlow oneFormerModelTestMethods).contains "test_training" = false
    ∧ (executedTests runSlow oneFormerModelTestMethods).contains
        "test_retain_grad_hidden_states_attentions" = false
    ∧ oneFormerModelTestMethods.find? (fun m => m.name == "test_training")
        = some ⟨"test_training", some "ski training", false⟩
    ∧ oneFormerModelTestMethods.find? (fun m => m.name == "test_retain_grad_hidden_states_attentions")
        = some ⟨"test_retain_grad_hidden_states_attentions", some "Mindspore has no retain_grad", false⟩ := by
  cases runSlow <;> exact ⟨by decide, by decide, by decide, by decide⟩

/-- Claim C7 counterexample: the invocation `_init_random_normal(0, -1, (2, 2))`
raises and performs zero native random-normal calls, not one. -/
theorem initRandomNormal_zero_calls_cex :
    (initRandomNormal fillZero 0 (-1) [2, 2] 0).2.length = 0 ∧
      (initRandomNormal fillZero 0 (-1) [2, 2] 0).2.length ≠ 1 := by
  decide

/-- Claim C7 (amended): every invocation of `_init_random_normal` with
`sigma >= 0`, and every invocation of the `XavierNormal` fill method whose computed
standard deviation is nonnegative, calls the native random-normal primitive exactly
once; an invocation with negative sigma raises `ValueError` and performs no native
call. -/
theorem initRandomNormal_single_call (fill : Int → ℚ → ℚ → List Nat → List ℚ)
    (mean sigma : ℚ) (shape : List Nat) (state : Nat) :
    (0 ≤ sigma → (initRandomNormal fill mean sigma shape state).2.length = 1)
    ∧ (sigma < 0 → (initRandomNormal fill mean sigma shape state).2.length = 0)
    ∧ (∀ (fanCalc : List Nat → Nat × Nat) (sqrtQ : ℚ → ℚ) (self : XavierNormal) (arr : NDArray),
        0 ≤ xavierStd sqrtQ self.gain (fanCalc arr.shape).1 (fanCalc arr.shape).2 →
          (xavierInit fanCalc sqrtQ fill self arr state).2.2.length = 1) := by
  refine ⟨?_, ?_, ?_⟩
  · intro h
    unfold initRandomNormal
    rw [if_neg (not_lt.mpr h)]
    rfl
  · intro h
    unfold initRandomNormal
    rw [if_pos h]
    rfl
  · intro fanCalc sqrtQ self arr h
    rw [xavierInit_eq, if_neg (not_lt.mpr h)]
    rfl

/-- Witness for the amended claim C7: sigma `1` gives one native call, sigma `-1`
gives none, and a fill-method run with nonnegative standard deviation gives one. -/
theorem initRandomNormal_single_call_witness :
    (initRandomNormal fillZero 0 1 [2] 0).2.length = 1
    ∧ (initRandomNormal fillZero 0 (-1) [2] 0).2.length = 0
    ∧ (xavierInit fanConst id fillZero ⟨1⟩ arrEx 0).2.2.length = 1 :=
  ⟨(initRandomNormal_single_call fillZero 0 1 [2] 0).1 (by norm_num),
   (initRandomNormal_single_call fillZero 0 (-1) [2] 0).2.1 (by norm_num),
   (initRandomNormal_single_call fillZero 0 0 [2] 0).2.2 fanConst id ⟨1⟩ arrEx
     (by norm_num [xavierStd, fanConst, arrEx])⟩

/-- Claim C8: `_numpy_seed` always returns a value `n` with `1 <= n < 2^63`, hence
strictly positive and representable as a signed 64-bit integer. -/
theorem numpySeed_range (state : Nat) :
    1 ≤ numpySeed state ∧ numpySeed state < 2 ^ 63 := by
  unfold numpySeed numpyRandint
  have hne : ((2:Int) ^ 63 - 1) ≠ 0 := by norm_num
  have hpos : (0:Int) < 2 ^ 63 - 1 := by norm_num
  have h1 := Int.emod_nonneg (state : Int) hne
  have h2 := Int.emod_lt_of_pos (state : Int) hpos
  constructor <;> linarith

/-- Claim C9: with a negative gain and a positive fan sum the computed standard
deviation is negative, so the `XavierNormal` fill method raises
`ValueError("sigma < 0")` before any native call or assignment, and the array is
left exactly as it was. -/
theorem xavier_neg_gain_raises (fanCalc : List Nat → Nat × Nat) (sqrtQ : ℚ → ℚ)
    (fill : Int → ℚ → ℚ → List Nat → List ℚ) (g : ℚ) (arr : NDArray) (state : Nat)
    (hg : g < 0)
    (hfan : 0 < (fanCalc arr.shape).1 + (fanCalc arr.shape).2)
    (hsqrt : ∀ q : ℚ, 0 < q → 0 < sqrtQ q) :
    xavierInit fanCalc sqrtQ fill ⟨g⟩ arr state = (Except.error "sigma < 0", arr, []) := by
  have hsum : (0:ℚ) < ((fanCalc arr.shape).1 : ℚ) + ((fanCalc arr.shape).2 : ℚ) := by
    exact_mod_cast hfan
  have hstd : xavierStd sqrtQ g (fanCalc arr.shape).1 (fanCalc arr.shape).2 < 0 :=
    mul_neg_of_neg_of_pos hg (hsqrt _ (div_pos (by norm_num) hsum))
  rw [xavierInit_eq, if_pos hstd]

/-- Witness for claim C9: gain `-1` on a `[2, 3]` array raises the `ValueError` and
returns the array untouched with an empty call trace. -/
theorem xavier_neg_gain_raises_witness :
    xavierInit fanConst id fillZero ⟨-1⟩ arrEx 0 = (Except.error "sigma < 0", arrEx, []) :=
  xavier_neg_gain_raises fanConst id fillZero (-1) arrEx 0 (by norm_num) (by decide)
    (fun _ hq => hq)

/-- Claim C10: for every `sigma >= 0`, `_init_random_normal` returns an array with
exactly the requested shape and dtype float32. -/
theorem initRandomNormal_shape_dtype (fill : Int → ℚ → ℚ → List Nat → List ℚ)
    (mean sigma : ℚ) (shape : List Nat) (state : Nat) (h : 0 ≤ sigma) :
    ∃ out, (initRandomNormal fill mean sigma shape state).1 = Except.ok out
      ∧ out.shape = shape ∧ out.dtype = DType.float32 := by
  refine ⟨⟨shape, DType.float32, fill (numpySeed state) mean sigma shape⟩, ?_, rfl, rfl⟩
  unfold initRandomNormal
  rw [if_neg (not_lt.mpr h)]

/-- Witness for claim C10 at sigma `0`, shape `[4, 5]`: the returned array has
shape `[4, 5]` and dtype float32. -/
theorem initRandomNormal_shape_dtype_witness :
    ∃ out, (initRandomNormal fillZero 0 0 [4, 5] 7).1 = Except.ok out
      ∧ out.shape = [4, 5] ∧ out.dtype = DType.float32 :=
  initRandomNormal_shape_dtype fillZero 0 0 [4, 5] 7 le_rfl
